import Mathlib

/-!
# Verification of the Meshtastic device-session engine

A shallow embedding of the session engine of this repository
(`src/iMeshDevice.ts`, the HTTP connection subclass, and the port-number
table), together with theorems settling the specification's claims about
it.

Modelling conventions:

* Stateful methods of `IMeshDevice` become pure functions
  `Env → IMeshDevice → args → IMeshDevice × List Effect`, where the
  `Effect` trace records, in program order, every externally observable
  action: event-channel emissions (`SubEvent.emit`), log calls, queue
  enqueues, transport writes (`writeToRadio`), acknowledgment-resolution
  hand-offs, and callback invocations.
* The wire codec (`ToRadio.toBinary`, `TextEncoder`, the generated
  protobuf classes) is an external collaborator that the engine treats
  opaquely; payloads are kept structured, and the only property of the
  binary encoding the engine inspects — the encoded length compared
  against 512 — is supplied by an abstract environment `Env`.
* `Math.random` (in `generateRandId`) is modelled by an oracle stream
  `Env.randId` indexed by a per-device draw counter `rndCtr`.
* The `Queue` class (`src/utils/queue.ts`) is not present under `src/`;
  its operations are modelled from the spec (§4.1), and are marked as
  such below.
-/

namespace Meshtastic

/-- Log levels of `Protobuf.LogRecord_Level` (generated code; the levels
used by `iMeshDevice.ts`). -/
inductive LogRecordLevel
  | UNSET
  | CRITICAL
  | ERROR
  | WARNING
  | NOTICE
  | INFO
  | DEBUG
  | TRACE
deriving DecidableEq

/-- Modelled from the spec: `Types.DeviceStatusEnum` (the `types.ts` file is
missing from `src/`); the six lifecycle stages named in spec §3 and used
throughout `src/iMeshDevice.ts` and the HTTP connection code. -/
inductive DeviceStatusEnum
  | DEVICE_DISCONNECTED
  | DEVICE_CONNECTING
  | DEVICE_RECONNECTING
  | DEVICE_CONNECTED
  | DEVICE_CONFIGURING
  | DEVICE_CONFIGURED
deriving DecidableEq

/-- Application port numbers, from `src/protobufs/portnums.ts` plus the
`TELEMETRY_APP` port referenced by `iMeshDevice.ts` (generated
`portnums.js`). -/
inductive PortNum
  | UNKNOWN_APP
  | TEXT_MESSAGE_APP
  | REMOTE_HARDWARE_APP
  | POSITION_APP
  | NODEINFO_APP
  | ROUTING_APP
  | ADMIN_APP
  | REPLY_APP
  | IP_TUNNEL_APP
  | SERIAL_APP
  | STORE_FORWARD_APP
  | RANGE_TEST_APP
  | TELEMETRY_APP
  | PRIVATE_APP
  | ATAK_FORWARDER
  | MAX
deriving DecidableEq

/-- `Protobuf.Position` (generated; only carried through by the engine). -/
structure Position where
  latitudeI : Int
  longitudeI : Int
deriving DecidableEq

/-- `Protobuf.Location` (generated; only carried through by the engine). -/
structure Location where
  latitudeI : Int
  longitudeI : Int
deriving DecidableEq

/-- `Protobuf.User` (generated; only carried through by the engine). -/
structure User where
  userId : String
deriving DecidableEq

/-- `Protobuf.Channel` (generated; only carried through by the engine). -/
structure Channel where
  index : Nat
deriving DecidableEq

/-- `Protobuf.Config` (generated; opaque to the engine). -/
structure ConfigMsg where
  tag : Nat
deriving DecidableEq

/-- `Protobuf.ModuleConfig` (generated; opaque to the engine). -/
structure ModuleConfigMsg where
  tag : Nat
deriving DecidableEq

/-- `Protobuf.LogRecord` (generated; opaque to the engine). -/
structure LogRecord where
  message : String
deriving DecidableEq

/-- `Protobuf.HardwareMessage` (generated; opaque to the engine). -/
structure HardwareMsg where
  tag : Nat
deriving DecidableEq

/-- `Protobuf.Routing` (generated; opaque to the engine). -/
structure RoutingMsg where
  tag : Nat
deriving DecidableEq

/-- `Protobuf.Telemetry` (generated; opaque to the engine). -/
structure TelemetryMsg where
  tag : Nat
deriving DecidableEq

/-- `Protobuf.NodeInfo` (generated): node number plus optional position and
user sub-messages, the fields `handleFromRadio` fans out. -/
structure NodeInfo where
  num : Nat
  position : Option Position
  user : Option User
deriving DecidableEq

/-- `Protobuf.MyNodeInfo` (generated): the fields `iMeshDevice.ts` reads
(`myNodeNum`, `maxChannels`, `firmwareVersion`). -/
structure MyNodeInfo where
  myNodeNum : Nat
  maxChannels : Nat
  firmwareVersion : String
deriving DecidableEq

/-- `Protobuf.AdminMessage` (generated): the oneof variants `iMeshDevice.ts`
builds or dispatches on. -/
inductive AdminMessage
  | getChannelRequest (n : Nat)
  | getChannelResponse (ch : Channel)
  | getOwnerResponse (u : User)
  | getConfigResponse (c : ConfigMsg)
  | getModuleConfigResponse (m : ModuleConfigMsg)
deriving DecidableEq

/-- Symbolic byte payloads of a data packet. The engine never inspects raw
bytes itself; it only passes them to the external codec. Each constructor
records which structured message the bytes encode (or `raw` for arbitrary
inbound bytes), so the external `fromBinary`/`TextDecoder` decoders become
pattern matches. -/
inductive Payload
  | text (s : String)
  | empty
  | admin (m : AdminMessage)
  | position (p : Position)
  | user (u : User)
  | routing (r : RoutingMsg)
  | hardware (h : HardwareMsg)
  | telemetry (t : TelemetryMsg)
  | raw (bs : List Nat)
deriving DecidableEq

/-- `TextDecoder().decode` applied to a symbolic payload (external codec;
UTF-8 round-trips, and decoding non-text bytes yields some string, modelled
as `""`). -/
def Payload.asText : Payload → String
  | .text s => s
  | _ => ""

/-- `Protobuf.Data`: the decoded variant of a mesh packet, with exactly the
fields `sendPacket` populates and the dispatcher reads. -/
structure Data where
  payload : Payload
  portnum : PortNum
  wantResponse : Bool
  location : Option Location
  emoji : Nat
  replyId : Nat
  dest : Nat
  requestId : Nat
  source : Nat
deriving DecidableEq

/-- The `payloadVariant` oneof of a `MeshPacket`; `unset` models a protobuf
message whose oneof has no case set (e.g. `MeshPacket.create({id})`). -/
inductive PacketVariant
  | decoded (d : Data)
  | encrypted (bs : List Nat)
  | unset
deriving DecidableEq

/-- `Protobuf.MeshPacket` with the fields `iMeshDevice.ts` uses. (`from` and
`to` are renamed: `from` is a Lean keyword.) -/
structure MeshPacket where
  fromNode : Nat
  toNode : Nat
  id : Nat
  wantAck : Bool
  channel : Nat
  payloadVariant : PacketVariant
deriving DecidableEq

/-- `Protobuf.ToRadio`: the outbound frame variants the engine constructs. -/
inductive ToRadio
  | packet (p : MeshPacket)
  | wantConfigId (n : Nat)
  | peerInfo (appVersion : Nat) (mqttGateway : Bool)
deriving DecidableEq

/-- The `payloadVariant` oneof of a `FromRadio` message: the inbound frame
kinds `handleFromRadio` dispatches on. -/
inductive FromRadioVariant
  | packet (p : MeshPacket)
  | myInfo (i : MyNodeInfo)
  | nodeInfo (n : NodeInfo)
  | config (c : ConfigMsg)
  | logRecord (r : LogRecord)
  | configCompleteId (n : Nat)
  | rebooted (b : Bool)
  | moduleConfig (m : ModuleConfigMsg)
deriving DecidableEq

/-- `Protobuf.FromRadio`. -/
structure FromRadio where
  id : Nat
  payloadVariant : FromRadioVariant
deriving DecidableEq

/-- A queue item, with the exact field shape `sendRaw` pushes:
`{ id, data, callback, waitingAck: false }`. The callback is modelled by a
numeric tag (`0` is the default no-op installed when the caller passes
none); invoking it is recorded in the effect trace. -/
structure QueueItem where
  id : Nat
  data : ToRadio
  cb : Nat
  waitingAck : Bool
deriving DecidableEq

/-- The Send Queue (`src/utils/queue.ts`, missing from `src/`): an ordered
FIFO sequence of items, per spec §4.1. -/
abbrev Queue := List QueueItem

/-- One observable action of the engine, in program order. -/
inductive Effect
  | logged (lv : LogRecordLevel)
  | enqueued (id : Nat) (frame : ToRadio)
  | writeToRadio (frame : ToRadio)
  | processAckCall (requestId : Nat)
  | callbackInvoked (cb : Nat)
  | allEventsCancelled
  | evDeviceStatus (s : DeviceStatusEnum)
  | evFromRadio (m : FromRadio)
  | evMeshPacket (p : MeshPacket)
  | evMyNodeInfo (i : MyNodeInfo)
  | evNodeInfo (packet : MeshPacket) (n : NodeInfo)
  | evPosition (packet : MeshPacket) (p : Position)
  | evUser (packet : MeshPacket) (u : User)
  | evConfig (packet : MeshPacket) (c : ConfigMsg)
  | evModuleConfig (packet : MeshPacket) (m : ModuleConfigMsg)
  | evLogRecord (r : LogRecord)
  | evText (packet : MeshPacket) (s : String)
  | evRemoteHardware (packet : MeshPacket) (h : HardwareMsg)
  | evRouting (packet : MeshPacket) (r : RoutingMsg)
  | evChannel (packet : MeshPacket) (ch : Channel)
  | evPing (packet : MeshPacket) (payload : Payload)
  | evIpTunnel (packet : MeshPacket) (payload : Payload)
  | evSerial (packet : MeshPacket) (payload : Payload)
  | evStoreForward (packet : MeshPacket) (payload : Payload)
  | evRangeTest (packet : MeshPacket) (payload : Payload)
  | evTelemetry (packet : MeshPacket) (t : TelemetryMsg)
  | evPrivate (packet : MeshPacket) (payload : Payload)
  | evAtak (packet : MeshPacket) (payload : Payload)
  | evMeshHeartbeat
deriving DecidableEq

/-- The external collaborators the engine consumes, kept abstract:
`encLen` is the byte length of `ToRadio.toBinary` (wire codec, external);
`fwBelowMin` is the firmware compatibility test
`parseFloat(firmwareVersion) < MIN_FW_VERSION` (`constants.ts` missing from
`src/`); `randId` is the `Math.random` stream drawn by `generateRandId`,
indexed by the number of draws made so far. -/
structure Env where
  encLen : ToRadio → Nat
  fwBelowMin : String → Bool
  randId : Nat → Nat

/-- The mutable state of an `IMeshDevice` instance: the fields of the class
that the embedded operations read or write. `rndCtr` counts `generateRandId`
draws (see `Env.randId`). The constructor's `onDeviceStatus` subscription
(which mirrors emitted statuses into `deviceStatus` and `isConfigured`) and
`onMyNodeInfo` subscription (which mirrors into `myNodeInfo`) are inlined
into the corresponding emit helpers below. -/
structure IMeshDevice where
  deviceStatus : DeviceStatusEnum
  isConfigured : Bool
  myNodeInfo : MyNodeInfo
  configId : Nat
  queue : Queue
  rndCtr : Nat
deriving DecidableEq

/-- `BROADCAST_NUM` from `constants.ts` (missing from `src/`). Modelled from
the spec: the broadcast destination sentinel node id (`0xffffffff`). -/
def BROADCAST_NUM : Nat := 4294967295

/-- Modelled from the spec (§4.1 `drain`, `queue.ts` missing from `src/`):
take the head item not yet awaiting acknowledgment, send it, mark it
`awaitingAck` and suspend until it is resolved. With the item shape pushed
by `sendRaw` every item carries a callback, so every send is
acknowledgment-gated. -/
def Queue.processQueue (q : Queue) : Queue × List Effect :=
  match q with
  | [] => ([], [])
  | item :: rest =>
    if item.waitingAck then (item :: rest, [])
    else ({ item with waitingAck := true } :: rest, [Effect.writeToRadio item.data])

/-- Modelled from the spec (§4.1 `resolveAck`, `queue.ts` missing from
`src/`): if an item matches the id, remove it, invoke its callback and
resume draining; for an id not present it is a no-op. -/
def Queue.processAck (requestId : Nat) (q : Queue) : Queue × List Effect :=
  match q.find? (fun item => item.id == requestId) with
  | some item =>
    let q1 := q.filter (fun it => it.id != requestId)
    let r := Queue.processQueue q1
    (r.1, Effect.callbackInvoked item.cb :: r.2)
  | none => (q, [])

/-- Modelled from the spec (§4.1 `clear`, `queue.ts` missing from `src/`):
discards all pending items without invoking callbacks. -/
def Queue.clear (_ : Queue) : Queue × List Effect := ([], [])

/-- `MeshPacket.create({ id })`: a packet with only its id set. -/
def packetWithId (pid : Nat) : MeshPacket :=
  { fromNode := 0, toNode := 0, id := pid, wantAck := false, channel := 0,
    payloadVariant := .unset }

/-- `MeshPacket.create({ id, from })`: a packet with id and sender set. -/
def packetWithIdFrom (pid fromNode : Nat) : MeshPacket :=
  { fromNode := fromNode, toNode := 0, id := pid, wantAck := false, channel := 0,
    payloadVariant := .unset }

/-- `generateRandId()`: draws the next value of the random oracle. -/
def generateRandId (env : Env) (dev : IMeshDevice) : Nat × IMeshDevice :=
  (env.randId dev.rndCtr, { dev with rndCtr := dev.rndCtr + 1 })

/-- `this.onDeviceStatus.emit(status)` together with the constructor's
subscription, which stores the status and maintains `isConfigured`. -/
def emitDeviceStatus (dev : IMeshDevice) (status : DeviceStatusEnum) :
    IMeshDevice × List Effect :=
  ({ dev with
      deviceStatus := status,
      isConfigured :=
        if status = DeviceStatusEnum.DEVICE_CONFIGURED then true
        else if status = DeviceStatusEnum.DEVICE_CONFIGURING then false
        else dev.isConfigured },
    [Effect.evDeviceStatus status])

/-- `updateDeviceStatus(status)`: emits a status event only when the new
value differs from the current one. -/
def updateDeviceStatus (dev : IMeshDevice) (status : DeviceStatusEnum) :
    IMeshDevice × List Effect :=
  if status ≠ dev.deviceStatus then emitDeviceStatus dev status
  else (dev, [])

/-- `this.onMyNodeInfo.emit(info)` together with the constructor's
subscription storing it into `myNodeInfo`. -/
def emitMyNodeInfo (dev : IMeshDevice) (info : MyNodeInfo) :
    IMeshDevice × List Effect :=
  ({ dev with myNodeInfo := info }, [Effect.evMyNodeInfo info])

/-- `sendRaw(id, toRadio, callback)`: frames longer than 512 encoded bytes
are dropped with a warning; otherwise the item is pushed onto the queue
(with the default no-op callback, tag 0, when none is given) and the queue
is drained. -/
def sendRaw (env : Env) (dev : IMeshDevice) (id : Nat) (toRadio : ToRadio)
    (cb : Nat) : IMeshDevice × List Effect :=
  if 512 < env.encLen toRadio then
    (dev, [Effect.logged .WARNING])
  else
    let r := Queue.processQueue
      (dev.queue ++ [{ id := id, data := toRadio, cb := cb, waitingAck := false }])
    ({ dev with queue := r.1 }, Effect.enqueued id toRadio :: r.2)

/-- The nested admin-response dispatch inside `handleDataPacket`'s
`ADMIN_APP` case. -/
def adminDispatch (m : AdminMessage) (meshPacket : MeshPacket) : List Effect :=
  match m with
  | .getChannelResponse ch => [Effect.evChannel meshPacket ch]
  | .getOwnerResponse u => [Effect.evUser meshPacket u]
  | .getConfigResponse c => [Effect.evConfig meshPacket c]
  | .getModuleConfigResponse mc => [Effect.evModuleConfig meshPacket mc]
  | .getChannelRequest _ => []

/-- `handleDataPacket(dataPacket, meshPacket)`: the per-port dispatch. Ports
whose payload is decoded by a generated `fromBinary` emit their event when
the symbolic payload carries that message kind (an undecodable payload is
dropped); pass-through ports forward the payload unchanged; an unrecognized
port logs a warning and drops the payload. -/
def handleDataPacket (d : Data) (meshPacket : MeshPacket) : List Effect :=
  match d.portnum with
  | .TEXT_MESSAGE_APP =>
    [Effect.logged .TRACE, Effect.evText meshPacket (Payload.asText d.payload)]
  | .REMOTE_HARDWARE_APP =>
    Effect.logged .TRACE ::
      (match d.payload with
        | .hardware h => [Effect.evRemoteHardware meshPacket h]
        | _ => [])
  | .POSITION_APP =>
    Effect.logged .TRACE ::
      (match d.payload with
        | .position p => [Effect.evPosition meshPacket p]
        | _ => [])
  | .NODEINFO_APP =>
    Effect.logged .TRACE ::
      (match d.payload with
        | .user u => [Effect.evUser meshPacket u]
        | _ => [])
  | .ROUTING_APP =>
    Effect.logged .TRACE ::
      (match d.payload with
        | .routing r => [Effect.evRouting meshPacket r]
        | _ => [])
  | .ADMIN_APP =>
    Effect.logged .TRACE ::
      (match d.payload with
        | .admin m => adminDispatch m meshPacket
        | _ => [])
  | .REPLY_APP => [Effect.logged .TRACE, Effect.evPing meshPacket d.payload]
  | .IP_TUNNEL_APP => [Effect.logged .TRACE, Effect.evIpTunnel meshPacket d.payload]
  | .SERIAL_APP => [Effect.logged .TRACE, Effect.evSerial meshPacket d.payload]
  | .STORE_FORWARD_APP =>
    [Effect.logged .TRACE, Effect.evStoreForward meshPacket d.payload]
  | .RANGE_TEST_APP => [Effect.logged .TRACE, Effect.evRangeTest meshPacket d.payload]
  | .TELEMETRY_APP =>
    Effect.logged .TRACE ::
      (match d.payload with
        | .telemetry t => [Effect.evTelemetry meshPacket t]
        | _ => [])
  | .PRIVATE_APP => [Effect.logged .TRACE, Effect.evPrivate meshPacket d.payload]
  | .ATAK_FORWARDER => [Effect.logged .TRACE, Effect.evAtak meshPacket d.payload]
  | _ => [Effect.logged .WARNING]

/-- `handleMeshPacket(meshPacket)`: emits the packet, emits a heartbeat when
the sender is not the local node, and for a decoded packet hands the
request id to the queue's acknowledgment resolution before dispatching by
port; encrypted packets are logged and ignored. -/
def handleMeshPacket (dev : IMeshDevice) (meshPacket : MeshPacket) :
    IMeshDevice × List Effect :=
  let hb : List Effect :=
    if meshPacket.fromNode ≠ dev.myNodeInfo.myNodeNum then [Effect.evMeshHeartbeat]
    else []
  match meshPacket.payloadVariant with
  | .decoded d =>
    let r := Queue.processAck d.requestId dev.queue
    ({ dev with queue := r.1 },
      Effect.evMeshPacket meshPacket :: hb ++
        (Effect.processAckCall d.requestId :: r.2) ++ handleDataPacket d meshPacket)
  | .encrypted _ =>
    (dev, Effect.evMeshPacket meshPacket :: hb ++ [Effect.logged .DEBUG])
  | .unset =>
    (dev, Effect.evMeshPacket meshPacket :: hb)

/-- The `MeshPacket.create({...})` literal inside `sendPacket`, factored out
by name: the decoded data packet with the given payload and metadata, sender
set to the local node number, destination falling back to the broadcast
sentinel when absent or zero (the JS truthiness test
`destinationNum ? destinationNum : BROADCAST_NUM`), and a freshly drawn
random packet id. -/
def builtMeshPacket (env : Env) (dev : IMeshDevice) (byteData : Payload)
    (portNum : PortNum) (destinationNum : Option Nat) (wantAck : Bool)
    (channel : Nat) (wantResponse : Bool) (emoji : Nat)
    (location : Option Location) (replyId : Nat) : MeshPacket :=
  { payloadVariant := .decoded
      { payload := byteData, portnum := portNum, wantResponse := wantResponse,
        location := location, emoji := emoji, replyId := replyId,
        dest := 0, requestId := 0, source := 0 },
    fromNode := dev.myNodeInfo.myNodeNum,
    toNode :=
      match destinationNum with
      | some dnum => if dnum = 0 then BROADCAST_NUM else dnum
      | none => BROADCAST_NUM,
    id := (generateRandId env dev).1, wantAck := wantAck, channel := channel }

/-- `sendPacket(byteData, portNum, destinationNum, wantAck, channel,
wantResponse, echoResponse, callback, emoji, location, replyId)`: builds the
mesh packet (see `builtMeshPacket`), optionally feeds it back through the
local inbound handler (`echoResponse`), then hands the encoded frame to
`sendRaw`. -/
def sendPacket (env : Env) (dev : IMeshDevice) (byteData : Payload)
    (portNum : PortNum) (destinationNum : Option Nat) (wantAck : Bool)
    (channel : Nat) (wantResponse : Bool) (echoResponse : Bool) (cb : Nat)
    (emoji : Nat) (location : Option Location) (replyId : Nat) :
    IMeshDevice × List Effect :=
  let g := generateRandId env dev
  let meshPacket : MeshPacket :=
    builtMeshPacket env dev byteData portNum destinationNum wantAck channel
      wantResponse emoji location replyId
  let echo :=
    if echoResponse then handleMeshPacket g.2 meshPacket
    else (g.2, [])
  let r := sendRaw env echo.1 meshPacket.id (ToRadio.packet meshPacket) cb
  (r.1, Effect.logged .TRACE :: (echo.2 ++ r.2))

/-- `sendText(text, destinationNum, wantAck, channel, callback)`: logs, then
sends the UTF-8 encoded text on the text-message port with
`echoResponse = true`. -/
def sendText (env : Env) (dev : IMeshDevice) (text : String)
    (destinationNum : Option Nat) (wantAck : Bool) (channel : Nat) (cb : Nat) :
    IMeshDevice × List Effect :=
  let r := sendPacket env dev (Payload.text text) .TEXT_MESSAGE_APP destinationNum
    wantAck channel false true cb 0 none 0
  (r.1, Effect.logged .DEBUG :: r.2)

/-- `sendLocation(location, destinationNum, wantAck, channel, callback)`:
logs, then sends an empty byte payload on the text-message port with the
location in the packet's `location` field and `echoResponse = true`. -/
def sendLocation (env : Env) (dev : IMeshDevice) (location : Location)
    (destinationNum : Option Nat) (wantAck : Bool) (channel : Nat) (cb : Nat) :
    IMeshDevice × List Effect :=
  let r := sendPacket env dev Payload.empty .TEXT_MESSAGE_APP destinationNum
    wantAck channel false true cb 0 (some location) 0
  (r.1, Effect.logged .DEBUG :: r.2)

/-- `getChannel(index, callback)`: logs, then sends an admin message whose
`getChannelRequest` field is `index + 1`, addressed to the local node. -/
def getChannel (env : Env) (dev : IMeshDevice) (index : Nat) (cb : Nat) :
    IMeshDevice × List Effect :=
  let r := sendPacket env dev (Payload.admin (.getChannelRequest (index + 1)))
    .ADMIN_APP (some dev.myNodeInfo.myNodeNum) true 0 true false cb 0 none 0
  (r.1, Effect.logged .DEBUG :: r.2)

/-- The `for (let i = 0; i <= this.myNodeInfo.maxChannels; i++)` loop body of
`getAllChannels`, running `fuel` iterations starting at index `i` (each
iteration's callback is the no-op pushed into the local array). -/
def getAllChannelsLoop (env : Env) (dev : IMeshDevice) (i fuel : Nat) :
    IMeshDevice × List Effect :=
  match fuel with
  | 0 => (dev, [])
  | Nat.succ f =>
    let r1 := getChannel env dev i 0
    let r2 := getAllChannelsLoop env r1.1 (i + 1) f
    (r2.1, r1.2 ++ r2.2)

/-- `getAllChannels(callback)`: logs, requests channel indices
`0 .. maxChannels` in order, then invokes the caller's callback when one
was supplied. -/
def getAllChannels (env : Env) (dev : IMeshDevice) (cb : Option Nat) :
    IMeshDevice × List Effect :=
  let r := getAllChannelsLoop env dev 0 (dev.myNodeInfo.maxChannels + 1)
  (r.1,
    Effect.logged .DEBUG :: r.2 ++
      (match cb with
        | some t => [Effect.callbackInvoked t]
        | none => []))

/-- `configure()`: logs, moves the status to `DEVICE_CONFIGURING`, then
sends a `wantConfigId` frame carrying the session's current `configId`
(the `setTimeout(500)` delay is flattened into sequential order). Note
that no fresh correlation id is drawn: `generateRandId` is only called for
`configId` in the constructor. -/
def configure (env : Env) (dev : IMeshDevice) : IMeshDevice × List Effect :=
  let r1 := updateDeviceStatus dev .DEVICE_CONFIGURING
  let r2 := sendRaw env r1.1 0 (ToRadio.wantConfigId dev.configId) 0
  (r2.1, Effect.logged .DEBUG :: (r1.2 ++ r2.2))

/-- `handleFromRadio(fromRadio)`: emits the decoded message, then dispatches
on its variant exactly as the source's switch does. -/
def handleFromRadio (env : Env) (dev : IMeshDevice) (msg : FromRadio) :
    IMeshDevice × List Effect :=
  match msg.payloadVariant with
  | .packet p =>
    let r := handleMeshPacket dev p
    (r.1, Effect.evFromRadio msg :: r.2)
  | .myInfo info =>
    let fwEff : List Effect :=
      if env.fwBelowMin info.firmwareVersion then [Effect.logged .CRITICAL] else []
    let r := emitMyNodeInfo dev info
    (r.1, Effect.evFromRadio msg :: fwEff ++ r.2 ++ [Effect.logged .TRACE])
  | .nodeInfo n =>
    let posEff : List Effect :=
      match n.position with
      | some p => [Effect.evPosition (packetWithIdFrom msg.id n.num) p]
      | none => []
    let userEff : List Effect :=
      match n.user with
      | some u => [Effect.evUser (packetWithIdFrom msg.id n.num) u]
      | none => []
    (dev,
      Effect.evFromRadio msg ::
        [Effect.logged .TRACE, Effect.evNodeInfo (packetWithId msg.id) n] ++
        posEff ++ userEff)
  | .config c =>
    (dev,
      Effect.evFromRadio msg ::
        [Effect.logged .TRACE, Effect.evConfig (packetWithId msg.id) c])
  | .logRecord rec =>
    (dev,
      Effect.evFromRadio msg :: [Effect.logged .TRACE, Effect.evLogRecord rec])
  | .configCompleteId n =>
    let mism : List Effect :=
      if n ≠ dev.configId then [Effect.logged .ERROR] else []
    let r1 := sendRaw env dev 0 (ToRadio.peerInfo 1 false) 0
    let r2 := getAllChannels env r1.1 (some 0)
    let r3 := updateDeviceStatus r2.1 .DEVICE_CONFIGURED
    (r3.1, (Effect.evFromRadio msg :: mism) ++ r1.2 ++ r2.2 ++ r3.2)
  | .rebooted _ =>
    let r := configure env dev
    (r.1, Effect.evFromRadio msg :: r.2)
  | .moduleConfig m =>
    (dev,
      Effect.evFromRadio msg ::
        [Effect.logged .TRACE, Effect.evModuleConfig (packetWithId msg.id) m])

/-- `complete()`: cancels every event channel and clears the queue (spec
§4.1: clearing invokes no callbacks). -/
def complete (dev : IMeshDevice) : IMeshDevice × List Effect :=
  let r := Queue.clear dev.queue
  ({ dev with queue := r.1 }, Effect.allEventsCancelled :: r.2)

/-- The state of an `HttpConnection`/`IHTTPConnection` instance that
`disconnect` touches: the base device state, whether the polling read loop
has been started (`this.readLoop` non-null), and whether the abort
controller has fired. -/
structure HttpConnection where
  dev : IMeshDevice
  readLoop : Bool
  aborted : Bool
deriving DecidableEq

/-- `disconnect()` (identical in both HTTP connection versions in the
sources): abort in-flight transport operations, force the status to
`DEVICE_DISCONNECTED`, and — only if the read loop had been started — stop
it and run `complete()`. -/
def HttpConnection.disconnect (h : HttpConnection) :
    HttpConnection × List Effect :=
  let h1 : HttpConnection := { h with aborted := true }
  let r1 := updateDeviceStatus h1.dev .DEVICE_DISCONNECTED
  if h.readLoop then
    let r2 := complete r1.1
    ({ h1 with dev := r2.1, readLoop := false }, r1.2 ++ r2.2)
  else
    ({ h1 with dev := r1.1 }, r1.2)

/-- The frame enqueued by an `enqueued` effect, if any. -/
def enqueueOf : Effect → Option ToRadio
  | .enqueued _ f => some f
  | _ => none

/-- The frames enqueued along a trace, in order. -/
def enqueuedFrames (tr : List Effect) : List ToRadio :=
  tr.filterMap enqueueOf

/-- The on-wire `getChannelRequest` value carried by a frame, if the frame
is an admin-port channel request. -/
def frameChannelRequest : ToRadio → Option Nat
  | .packet mp =>
    match mp.payloadVariant with
    | .decoded d =>
      match d.payload with
      | .admin (.getChannelRequest v) =>
        if d.portnum = PortNum.ADMIN_APP then some v else none
      | _ => none
    | _ => none
  | _ => none

/-- The on-wire `getChannelRequest` value carried by an enqueue effect, if
any. -/
def chanReqOf (e : Effect) : Option Nat :=
  match e with
  | .enqueued _ f => frameChannelRequest f
  | _ => none

/-- The `getChannelRequest` values enqueued along a trace, in order. -/
def channelRequestValues (tr : List Effect) : List Nat :=
  tr.filterMap chanReqOf

/-- Whether an effect is one of the per-port dispatch emissions of
`handleDataPacket`. -/
def isPortDispatch : Effect → Bool
  | .evText _ _ => true
  | .evRemoteHardware _ _ => true
  | .evPosition _ _ => true
  | .evUser _ _ => true
  | .evRouting _ _ => true
  | .evChannel _ _ => true
  | .evConfig _ _ => true
  | .evModuleConfig _ _ => true
  | .evPing _ _ => true
  | .evIpTunnel _ _ => true
  | .evSerial _ _ => true
  | .evStoreForward _ _ => true
  | .evRangeTest _ _ => true
  | .evTelemetry _ _ => true
  | .evPrivate _ _ => true
  | .evAtak _ _ => true
  | _ => false

/-- A concrete environment for witnesses: every frame encodes to 0 bytes,
the firmware is accepted, and the random stream yields `100, 101, …`. -/
def env0 : Env :=
  { encLen := fun _ => 0, fwBelowMin := fun _ => false,
    randId := fun n => n + 100 }

/-- A concrete environment in which every frame encodes to 600 bytes,
exceeding the 512-byte limit. -/
def envBig : Env :=
  { encLen := fun _ => 600, fwBelowMin := fun _ => false,
    randId := fun n => n + 100 }

/-- A concrete `MyNodeInfo` for witnesses. -/
def info0 : MyNodeInfo :=
  { myNodeNum := 5, maxChannels := 1, firmwareVersion := "1.2" }

/-- A concrete device in the middle of a handshake. -/
def dev0 : IMeshDevice :=
  { deviceStatus := .DEVICE_CONFIGURING, isConfigured := false,
    myNodeInfo := info0, configId := 7, queue := [], rndCtr := 0 }

/-- A concrete configured device. -/
def devConfigured : IMeshDevice :=
  { dev0 with deviceStatus := .DEVICE_CONFIGURED, isConfigured := true }

/-- A concrete pending queue item. -/
def sampleItem : QueueItem :=
  { id := 3, data := ToRadio.wantConfigId 7, cb := 4, waitingAck := false }

/-- A concrete inbound text data-packet whose `requestId` is zero. -/
def samplePacket : MeshPacket :=
  { fromNode := 9, toNode := 5, id := 11, wantAck := false, channel := 0,
    payloadVariant := .decoded
      { payload := .text "hi", portnum := .TEXT_MESSAGE_APP,
        wantResponse := false, location := none, emoji := 0, replyId := 0,
        dest := 0, requestId := 0, source := 0 } }

/-- An HTTP connection whose read loop is running. -/
def httpSample : HttpConnection :=
  { dev := { dev0 with queue := [sampleItem] }, readLoop := true,
    aborted := false }

/-- An HTTP connection on which `connect` never reached the point of
starting the read loop (e.g. `disconnect` called while still
`Connecting`), with a pending queue item. -/
def httpNoLoop : HttpConnection :=
  { dev := { dev0 with
      deviceStatus := .DEVICE_CONNECTING,
      queue := [sampleItem] },
    readLoop := false, aborted := false }

/-- The fields of the device state that the queue-and-send layer never
touches (everything except the queue and the random-draw counter). -/
def sameCore (a b : IMeshDevice) : Prop :=
  a.deviceStatus = b.deviceStatus ∧ a.isConfigured = b.isConfigured ∧
  a.myNodeInfo = b.myNodeInfo ∧ a.configId = b.configId

lemma sameCore_refl (a : IMeshDevice) : sameCore a a := ⟨rfl, rfl, rfl, rfl⟩

lemma sameCore_trans {a b c : IMeshDevice} (h1 : sameCore a b)
    (h2 : sameCore b c) : sameCore a c :=
  ⟨h1.1.trans h2.1, h1.2.1.trans h2.2.1, h1.2.2.1.trans h2.2.2.1,
    h1.2.2.2.trans h2.2.2.2⟩

/-- Draining only writes frames: every effect it produces is a transport
write. -/
lemma mem_processQueue_snd {q : Queue} {e : Effect}
    (h : e ∈ (Queue.processQueue q).2) : ∃ f, e = Effect.writeToRadio f := by
  cases q with
  | nil => simp [Queue.processQueue] at h
  | cons item rest =>
    by_cases hw : item.waitingAck
    · simp [Queue.processQueue, hw] at h
    · simp [Queue.processQueue, hw] at h
      exact ⟨item.data, h⟩

/-- Acknowledgment resolution only invokes a callback and possibly resumes
draining. -/
lemma mem_processAck_snd {rid : Nat} {q : Queue} {e : Effect}
    (h : e ∈ (Queue.processAck rid q).2) :
    (∃ c, e = Effect.callbackInvoked c) ∨ ∃ f, e = Effect.writeToRadio f := by
  unfold Queue.processAck at h
  cases hf : q.find? (fun item => item.id == rid) with
  | none => rw [hf] at h; simp at h
  | some item =>
    rw [hf] at h
    simp only [List.mem_cons] at h
    rcases h with h | h
    · exact Or.inl ⟨item.cb, h⟩
    · exact Or.inr (mem_processQueue_snd h)

/-- Draining preserves the id and payload of every queued item (it only
flips `waitingAck` flags). -/
lemma processQueue_idData (q : Queue) :
    ((Queue.processQueue q).1).map (fun it => (it.id, it.data)) =
      q.map (fun it => (it.id, it.data)) := by
  cases q with
  | nil => rfl
  | cons item rest => by_cases hw : item.waitingAck <;> simp [Queue.processQueue, hw]

lemma enqueuedFrames_append (a b : List Effect) :
    enqueuedFrames (a ++ b) = enqueuedFrames a ++ enqueuedFrames b := by
  simp [enqueuedFrames]

lemma enqueuedFrames_eq_nil {tr : List Effect}
    (h : ∀ e ∈ tr, enqueueOf e = none) : enqueuedFrames tr = [] := by
  simpa [enqueuedFrames, List.filterMap_eq_nil_iff] using h

lemma enqueuedFrames_processQueue (q : Queue) :
    enqueuedFrames (Queue.processQueue q).2 = [] := by
  refine enqueuedFrames_eq_nil fun e he => ?_
  obtain ⟨f, rfl⟩ := mem_processQueue_snd he
  rfl

lemma enqueuedFrames_processAck (rid : Nat) (q : Queue) :
    enqueuedFrames (Queue.processAck rid q).2 = [] := by
  refine enqueuedFrames_eq_nil fun e he => ?_
  rcases mem_processAck_snd he with ⟨c, rfl⟩ | ⟨f, rfl⟩ <;> rfl

lemma filterMap_enqueueOf_processQueue (q : Queue) :
    List.filterMap enqueueOf (Queue.processQueue q).2 = [] :=
  enqueuedFrames_processQueue q

lemma filterMap_enqueueOf_processAck (rid : Nat) (q : Queue) :
    List.filterMap enqueueOf (Queue.processAck rid q).2 = [] :=
  enqueuedFrames_processAck rid q

lemma channelRequestValues_append (a b : List Effect) :
    channelRequestValues (a ++ b) =
      channelRequestValues a ++ channelRequestValues b := by
  simp [channelRequestValues]

lemma channelRequestValues_logged_cons (lv : LogRecordLevel)
    (tr : List Effect) :
    channelRequestValues (Effect.logged lv :: tr) = channelRequestValues tr := by
  simp [channelRequestValues, List.filterMap_cons, chanReqOf]

lemma channelRequestValues_processQueue (q : Queue) :
    channelRequestValues (Queue.processQueue q).2 = [] := by
  rw [channelRequestValues, List.filterMap_eq_nil_iff]
  intro e he
  obtain ⟨f, rfl⟩ := mem_processQueue_snd he
  rfl

lemma channelRequestValues_processAck (rid : Nat) (q : Queue) :
    channelRequestValues (Queue.processAck rid q).2 = [] := by
  rw [channelRequestValues, List.filterMap_eq_nil_iff]
  intro e he
  rcases mem_processAck_snd he with ⟨c, rfl⟩ | ⟨f, rfl⟩ <;> rfl

/-- `sendRaw` on a frame within the 512-byte limit: the item is appended
and the queue drained. -/
lemma sendRaw_eq_of_le {env : Env} {f : ToRadio} (dev : IMeshDevice)
    (id cb : Nat) (h : env.encLen f ≤ 512) :
    sendRaw env dev id f cb =
      ({ dev with queue :=
          (Queue.processQueue
            (dev.queue ++ [{ id := id, data := f, cb := cb, waitingAck := false }])).1 },
        Effect.enqueued id f ::
          (Queue.processQueue
            (dev.queue ++ [{ id := id, data := f, cb := cb, waitingAck := false }])).2) := by
  unfold sendRaw
  rw [if_neg (Nat.not_lt.mpr h)]

lemma sendRaw_core (env : Env) (dev : IMeshDevice) (id : Nat) (f : ToRadio)
    (cb : Nat) : sameCore (sendRaw env dev id f cb).1 dev := by
  unfold sendRaw
  split <;> exact ⟨rfl, rfl, rfl, rfl⟩

lemma sendRaw_rndCtr (env : Env) (dev : IMeshDevice) (id : Nat) (f : ToRadio)
    (cb : Nat) : (sendRaw env dev id f cb).1.rndCtr = dev.rndCtr := by
  unfold sendRaw
  split <;> rfl

lemma handleMeshPacket_core (dev : IMeshDevice) (p : MeshPacket) :
    sameCore (handleMeshPacket dev p).1 dev := by
  unfold handleMeshPacket
  rcases p with ⟨f, t, i, w, c, pv⟩
  cases pv <;> exact ⟨rfl, rfl, rfl, rfl⟩

lemma sendPacket_core (env : Env) (dev : IMeshDevice) (byteData : Payload)
    (portNum : PortNum) (destinationNum : Option Nat) (wantAck : Bool)
    (channel : Nat) (wantResponse echoResponse : Bool) (cb emoji : Nat)
    (location : Option Location) (replyId : Nat) :
    sameCore (sendPacket env dev byteData portNum destinationNum wantAck channel
      wantResponse echoResponse cb emoji location replyId).1 dev := by
  unfold sendPacket
  refine sameCore_trans (sendRaw_core _ _ _ _ _) ?_
  split
  · exact sameCore_trans (handleMeshPacket_core _ _) ⟨rfl, rfl, rfl, rfl⟩
  · exact ⟨rfl, rfl, rfl, rfl⟩

lemma getChannel_core (env : Env) (dev : IMeshDevice) (i cb : Nat) :
    sameCore (getChannel env dev i cb).1 dev := by
  unfold getChannel
  exact sendPacket_core env dev _ _ _ _ _ _ _ _ _ _ _

lemma getAllChannelsLoop_core (env : Env) :
    ∀ (fuel i : Nat) (dev : IMeshDevice),
      sameCore (getAllChannelsLoop env dev i fuel).1 dev := by
  intro fuel
  induction fuel with
  | zero => intro i dev; exact sameCore_refl _
  | succ f ih =>
    intro i dev
    exact sameCore_trans (ih (i + 1) (getChannel env dev i 0).1)
      (getChannel_core env dev i 0)

lemma getAllChannels_core (env : Env) (dev : IMeshDevice) (cb : Option Nat) :
    sameCore (getAllChannels env dev cb).1 dev := by
  unfold getAllChannels
  exact getAllChannelsLoop_core env _ _ dev

lemma updateDeviceStatus_fst_status (dev : IMeshDevice)
    (s : DeviceStatusEnum) : (updateDeviceStatus dev s).1.deviceStatus = s := by
  unfold updateDeviceStatus emitDeviceStatus
  split
  · rfl
  · next h => exact (not_ne_iff.mp h).symm

lemma updateDeviceStatus_rest (dev : IMeshDevice) (s : DeviceStatusEnum) :
    (updateDeviceStatus dev s).1.myNodeInfo = dev.myNodeInfo ∧
      (updateDeviceStatus dev s).1.configId = dev.configId ∧
      (updateDeviceStatus dev s).1.queue = dev.queue ∧
      (updateDeviceStatus dev s).1.rndCtr = dev.rndCtr := by
  unfold updateDeviceStatus emitDeviceStatus
  split <;> exact ⟨rfl, rfl, rfl, rfl⟩

lemma updateDeviceStatus_snd_of_ne {dev : IMeshDevice} {s : DeviceStatusEnum}
    (h : s ≠ dev.deviceStatus) :
    (updateDeviceStatus dev s).2 = [Effect.evDeviceStatus s] := by
  unfold updateDeviceStatus emitDeviceStatus
  rw [if_pos h]

/-- A single `getChannel` call enqueues exactly one channel request, whose
on-wire value is `index + 1`. -/
lemma channelRequestValues_getChannel {env : Env}
    (hsmall : ∀ f, env.encLen f ≤ 512) (dev : IMeshDevice) (i cb : Nat) :
    channelRequestValues (getChannel env dev i cb).2 = [i + 1] := by
  simp only [getChannel, sendPacket, sendRaw]
  rw [if_neg (Nat.not_lt.mpr (hsmall _))]
  simp only [channelRequestValues, List.filterMap_cons, List.filterMap_append,
    chanReqOf, frameChannelRequest, builtMeshPacket]
  simp [List.filterMap_eq_nil_iff]
  intro e he
  obtain ⟨f, rfl⟩ := mem_processQueue_snd he
  rfl

/-- The channel-enumeration loop starting at index `i` with `fuel`
iterations enqueues exactly the on-wire values `i+1, …, i+fuel`. -/
lemma channelRequestValues_getAllChannelsLoop {env : Env}
    (hsmall : ∀ f, env.encLen f ≤ 512) :
    ∀ (fuel i : Nat) (dev : IMeshDevice),
      channelRequestValues (getAllChannelsLoop env dev i fuel).2 =
        List.range' (i + 1) fuel := by
  intro fuel
  induction fuel with
  | zero => intro i dev; simp [getAllChannelsLoop, channelRequestValues]
  | succ f ih =>
    intro i dev
    simp only [getAllChannelsLoop]
    rw [channelRequestValues_append, channelRequestValues_getChannel hsmall, ih]
    rfl

/-- `getAllChannels` enqueues exactly the on-wire values
`1, …, maxChannels + 1`. -/
lemma channelRequestValues_getAllChannels {env : Env}
    (hsmall : ∀ f, env.encLen f ≤ 512) (dev : IMeshDevice) (cb : Option Nat) :
    channelRequestValues (getAllChannels env dev cb).2 =
      List.range' 1 (dev.myNodeInfo.maxChannels + 1) := by
  simp only [getAllChannels]
  rw [channelRequestValues_append, channelRequestValues_logged_cons,
    channelRequestValues_getAllChannelsLoop hsmall]
  cases cb <;> simp [channelRequestValues, chanReqOf]

lemma mem_updateDeviceStatus_snd {dev : IMeshDevice} {s : DeviceStatusEnum}
    {e : Effect} (h : e ∈ (updateDeviceStatus dev s).2) :
    e = Effect.evDeviceStatus s := by
  unfold updateDeviceStatus emitDeviceStatus at h
  split at h
  · simpa using h
  · simp at h

lemma updateDeviceStatus_of_ne {dev : IMeshDevice} {s : DeviceStatusEnum}
    (h : s ≠ dev.deviceStatus) :
    updateDeviceStatus dev s =
      ({ dev with
          deviceStatus := s,
          isConfigured :=
            if s = DeviceStatusEnum.DEVICE_CONFIGURED then true
            else if s = DeviceStatusEnum.DEVICE_CONFIGURING then false
            else dev.isConfigured },
        [Effect.evDeviceStatus s]) := by
  unfold updateDeviceStatus emitDeviceStatus
  rw [if_pos h]

lemma mem_sendRaw_snd {env : Env} {dev : IMeshDevice} {id : Nat}
    {f : ToRadio} {cb : Nat} {e : Effect}
    (h : e ∈ (sendRaw env dev id f cb).2) :
    (∃ lv, e = Effect.logged lv) ∨ e = Effect.enqueued id f ∨
      ∃ g, e = Effect.writeToRadio g := by
  unfold sendRaw at h
  split at h
  · simp at h
    exact Or.inl ⟨_, h⟩
  · simp only [List.mem_cons] at h
    rcases h with h | h
    · exact Or.inr (Or.inl h)
    · exact Or.inr (Or.inr (mem_processQueue_snd h))

lemma enqueuedFrames_sendRaw (env : Env) (dev : IMeshDevice) (id : Nat)
    (f : ToRadio) (cb : Nat) :
    enqueuedFrames (sendRaw env dev id f cb).2 =
      if 512 < env.encLen f then [] else [f] := by
  by_cases h : 512 < env.encLen f
  · simp [sendRaw, h, enqueuedFrames, enqueueOf]
  · rw [sendRaw_eq_of_le dev id cb (Nat.not_lt.mp h), if_neg h]
    simp [enqueuedFrames, List.filterMap_cons, enqueueOf,
      List.filterMap_eq_nil_iff]
    intro e he
    obtain ⟨g, rfl⟩ := mem_processQueue_snd he
    rfl

/-- Explicit form of the trace of `sendText`: the two log entries, the
echoed packet's inbound handling (packet event, acknowledgment hand-off,
text dispatch — and no heartbeat, since the echoed sender is the local
node), followed by the `sendRaw` effects. -/
lemma sendText_snd (env : Env) (dev : IMeshDevice) (text : String)
    (dest : Option Nat) (wantAck : Bool) (channel cb : Nat) :
    (sendText env dev text dest wantAck channel cb).2 =
      (Effect.logged .DEBUG :: Effect.logged .TRACE ::
        Effect.evMeshPacket
          (builtMeshPacket env dev (Payload.text text) .TEXT_MESSAGE_APP dest
            wantAck channel false 0 none 0) ::
        Effect.processAckCall 0 ::
        ((Queue.processAck 0 dev.queue).2 ++
          [Effect.logged .TRACE,
            Effect.evText
              (builtMeshPacket env dev (Payload.text text) .TEXT_MESSAGE_APP dest
                wantAck channel false 0 none 0) text])) ++
      (sendRaw env
        { dev with
            rndCtr := dev.rndCtr + 1,
            queue := (Queue.processAck 0 dev.queue).1 }
        (builtMeshPacket env dev (Payload.text text) .TEXT_MESSAGE_APP dest
          wantAck channel false 0 none 0).id
        (ToRadio.packet
          (builtMeshPacket env dev (Payload.text text) .TEXT_MESSAGE_APP dest
            wantAck channel false 0 none 0)) cb).2 := by
  simp [sendText, sendPacket, handleMeshPacket, builtMeshPacket,
    handleDataPacket, generateRandId, Payload.asText]

/-- C7: `updateDeviceStatus` is idempotent with respect to event emission:
for every status value `s`, a status-change event is emitted if and only if
`s` differs from the current `deviceStatus`; exactly one event is emitted in
that case, and transitioning to the value already held emits nothing and
leaves the session state unchanged. -/
theorem c7_updateDeviceStatus_idempotent (dev : IMeshDevice)
    (s : DeviceStatusEnum) :
    (Effect.evDeviceStatus s ∈ (updateDeviceStatus dev s).2 ↔
      s ≠ dev.deviceStatus) ∧
    (s ≠ dev.deviceStatus →
      (updateDeviceStatus dev s).2 = [Effect.evDeviceStatus s]) ∧
    (s = dev.deviceStatus → updateDeviceStatus dev s = (dev, [])) := by
  by_cases h : s = dev.deviceStatus
  · have hno : updateDeviceStatus dev s = (dev, []) := by
      unfold updateDeviceStatus
      rw [if_neg (not_ne_iff.mpr h)]
    refine ⟨?_, fun hn => absurd h hn, fun _ => hno⟩
    rw [hno]
    simp [h]
  · refine ⟨?_, fun _ => updateDeviceStatus_snd_of_ne h, fun he => absurd he h⟩
    rw [updateDeviceStatus_snd_of_ne h]
    simp [h]

/-- C7 witness: transitioning a disconnected device to `Disconnected` again
is a no-op. -/
theorem c7_witness :
    DeviceStatusEnum.DEVICE_DISCONNECTED =
        ({ dev0 with deviceStatus := .DEVICE_DISCONNECTED } :
          IMeshDevice).deviceStatus ∧
      updateDeviceStatus { dev0 with deviceStatus := .DEVICE_DISCONNECTED }
          .DEVICE_DISCONNECTED =
        ({ dev0 with deviceStatus := .DEVICE_DISCONNECTED }, []) :=
  ⟨rfl,
    (c7_updateDeviceStatus_idempotent
      { dev0 with deviceStatus := .DEVICE_DISCONNECTED }
      .DEVICE_DISCONNECTED).2.2 rfl⟩

/-- C3: `sendRaw` drops any frame longer than 512 encoded bytes with a
warning log — the device state (hence the queue) is unchanged, no enqueue
and no transport write occurs for it, and the function returns normally —
while a frame of 512 bytes or less is enqueued (the enqueue effect is
emitted and an item with that id and frame is in the queue afterwards). -/
theorem c3_sendRaw_size_limit (env : Env) (dev : IMeshDevice) (id : Nat)
    (frame : ToRadio) (cb : Nat) :
    (512 < env.encLen frame →
      sendRaw env dev id frame cb = (dev, [Effect.logged .WARNING])) ∧
    (env.encLen frame ≤ 512 →
      Effect.enqueued id frame ∈ (sendRaw env dev id frame cb).2 ∧
      (id, frame) ∈
        ((sendRaw env dev id frame cb).1.queue.map
          fun it => (it.id, it.data))) := by
  constructor
  · intro h
    unfold sendRaw
    rw [if_pos h]
  · intro h
    rw [sendRaw_eq_of_le dev id cb h]
    refine ⟨List.mem_cons_self _ _, ?_⟩
    simp only [processQueue_idData, List.map_append, List.mem_append]
    right
    simp

/-- C3 witness: a 600-byte frame is dropped with a warning; a 0-byte frame
is enqueued. -/
theorem c3_witness :
    (512 < envBig.encLen (ToRadio.wantConfigId 7) ∧
      sendRaw envBig dev0 3 (ToRadio.wantConfigId 7) 0 =
        (dev0, [Effect.logged .WARNING])) ∧
    (env0.encLen (ToRadio.wantConfigId 7) ≤ 512 ∧
      Effect.enqueued 3 (ToRadio.wantConfigId 7) ∈
        (sendRaw env0 dev0 3 (ToRadio.wantConfigId 7) 0).2) :=
  ⟨⟨by decide,
    (c3_sendRaw_size_limit envBig dev0 3 (ToRadio.wantConfigId 7) 0).1
      (by decide)⟩,
   ⟨by decide,
    ((c3_sendRaw_size_limit env0 dev0 3 (ToRadio.wantConfigId 7) 0).2
      (by decide)).1⟩⟩

/-- C8: `getChannel(i)` enqueues exactly one admin message, whose
`getChannelRequest` value is `i + 1`, and `getAllChannels` on a device
reporting maximum channel count `m` enqueues exactly the request values
`1, 2, …, m + 1` (in order). -/
theorem c8_getChannel_index_offset (env : Env) (dev : IMeshDevice)
    (hsmall : ∀ f, env.encLen f ≤ 512) :
    (∀ i cb, channelRequestValues (getChannel env dev i cb).2 = [i + 1]) ∧
    channelRequestValues (getAllChannels env dev none).2 =
      List.range' 1 (dev.myNodeInfo.maxChannels + 1) :=
  ⟨fun i cb => channelRequestValues_getChannel hsmall dev i cb,
   channelRequestValues_getAllChannels hsmall dev none⟩

/-- C8 witness: on a device reporting `maxChannels = 1`, `getAllChannels`
requests the on-wire values `[1, 2]`. -/
theorem c8_witness :
    (∀ f, env0.encLen f ≤ 512) ∧
      channelRequestValues (getAllChannels env0 dev0 none).2 =
        List.range' 1 (dev0.myNodeInfo.maxChannels + 1) :=
  ⟨fun _ => Nat.zero_le 512,
   (c8_getChannel_index_offset env0 dev0 (fun _ => Nat.zero_le 512)).2⟩

/-- C5: an inbound config-complete whose echoed id differs from the current
`configId` produces an error-level log entry, and then the handshake
proceeds exactly as in the matching-id case: the remaining effect trace and
the final device state are identical to those of the matching-id run. -/
theorem c5_config_id_mismatch_nonfatal (env : Env) (dev : IMeshDevice)
    (n fid : Nat) (h : n ≠ dev.configId) :
    ∃ d rest,
      handleFromRadio env dev
          { id := fid, payloadVariant := .configCompleteId n } =
        (d, Effect.evFromRadio
            { id := fid, payloadVariant := .configCompleteId n } ::
          Effect.logged .ERROR :: rest) ∧
      handleFromRadio env dev
          { id := fid, payloadVariant := .configCompleteId dev.configId } =
        (d, Effect.evFromRadio
            { id := fid, payloadVariant := .configCompleteId dev.configId } ::
          rest) := by
  refine
    ⟨(updateDeviceStatus
        (getAllChannels env (sendRaw env dev 0 (ToRadio.peerInfo 1 false) 0).1
          (some 0)).1 .DEVICE_CONFIGURED).1,
      (sendRaw env dev 0 (ToRadio.peerInfo 1 false) 0).2 ++
        (getAllChannels env (sendRaw env dev 0 (ToRadio.peerInfo 1 false) 0).1
          (some 0)).2 ++
        (updateDeviceStatus
          (getAllChannels env (sendRaw env dev 0 (ToRadio.peerInfo 1 false) 0).1
            (some 0)).1 .DEVICE_CONFIGURED).2,
      ?_, ?_⟩
  · simp only [handleFromRadio]
    rw [if_pos h]
    simp
  · simp only [handleFromRadio]
    rw [if_neg (by simp)]
    simp

/-- C5 witness: on the sample device (whose `configId` is 7), an echoed id
of 8 logs an error and then proceeds exactly as the matching run. -/
theorem c5_witness :
    (8 ≠ dev0.configId) ∧
      ∃ d rest,
        handleFromRadio env0 dev0
            { id := 0, payloadVariant := .configCompleteId 8 } =
          (d, Effect.evFromRadio
              { id := 0, payloadVariant := .configCompleteId 8 } ::
            Effect.logged .ERROR :: rest) ∧
        handleFromRadio env0 dev0
            { id := 0, payloadVariant := .configCompleteId dev0.configId } =
          (d, Effect.evFromRadio
              { id := 0, payloadVariant := .configCompleteId dev0.configId } ::
            rest) :=
  ⟨by decide, c5_config_id_mismatch_nonfatal env0 dev0 8 0 (by decide)⟩

/-- C6 counterexample: the claim says the request id is handed to
`processAck` if and only if it is non-zero, but `handleMeshPacket` hands it
over unconditionally: for the concrete inbound text packet whose
`requestId` is 0, `processAck` is still invoked with 0. -/
theorem c6_processAck_called_with_zero_cex :
    Effect.processAckCall 0 ∈ (handleMeshPacket dev0 samplePacket).2 := by
  decide

/-- C6 (amended): for every decoded inbound data-packet, acknowledgment
resolution runs before port dispatch — the trace is a prefix containing the
`processAck` hand-off (and no port-dispatch event) followed by the port
dispatch — and the request id is handed to `processAck` unconditionally,
whether or not it is zero. -/
theorem c6_ack_resolution_before_dispatch (dev : IMeshDevice)
    (p : MeshPacket) (d : Data)
    (hdec : p.payloadVariant = PacketVariant.decoded d) :
    ∃ pre,
      (handleMeshPacket dev p).2 = pre ++ handleDataPacket d p ∧
      Effect.processAckCall d.requestId ∈ pre ∧
      ∀ e ∈ pre, isPortDispatch e = false := by
  rcases p with ⟨pf, pt, pid, pw, pc, pv⟩
  cases pv with
  | decoded d2 =>
    simp only [PacketVariant.decoded.injEq] at hdec
    subst hdec
    by_cases hfrom : pf ≠ dev.myNodeInfo.myNodeNum
    all_goals
      simp only [handleMeshPacket]
    · rw [if_pos hfrom]
      refine ⟨_, rfl, ?_, ?_⟩
      · simp
      · intro e he
        rcases List.mem_append.mp he with h1 | h1
        · rcases List.mem_cons.mp h1 with rfl | h2
          · rfl
          · obtain rfl := List.mem_singleton.mp h2
            rfl
        · rcases List.mem_cons.mp h1 with rfl | h2
          · rfl
          · rcases mem_processAck_snd h2 with ⟨c, rfl⟩ | ⟨f, rfl⟩ <;> rfl
    · rw [if_neg hfrom]
      refine ⟨_, rfl, ?_, ?_⟩
      · simp
      · intro e he
        rcases List.mem_append.mp he with h1 | h1
        · rcases List.mem_cons.mp h1 with rfl | h2
          · rfl
          · exact absurd h2 (List.not_mem_nil e)
        · rcases List.mem_cons.mp h1 with rfl | h2
          · rfl
          · rcases mem_processAck_snd h2 with ⟨c, rfl⟩ | ⟨f, rfl⟩ <;> rfl
  | encrypted bs => simp at hdec
  | unset => simp at hdec

/-- C6 witness: for the concrete inbound text packet (request id 0), the
hand-off precedes dispatch. -/
theorem c6_witness :
    samplePacket.payloadVariant =
        PacketVariant.decoded
          { payload := .text "hi", portnum := .TEXT_MESSAGE_APP,
            wantResponse := false, location := none, emoji := 0, replyId := 0,
            dest := 0, requestId := 0, source := 0 } ∧
      ∃ pre,
        (handleMeshPacket dev0 samplePacket).2 =
          pre ++
            handleDataPacket
              { payload := .text "hi", portnum := .TEXT_MESSAGE_APP,
                wantResponse := false, location := none, emoji := 0,
                replyId := 0, dest := 0, requestId := 0, source := 0 }
              samplePacket ∧
        Effect.processAckCall
            (Data.requestId
              { payload := .text "hi", portnum := .TEXT_MESSAGE_APP,
                wantResponse := false, location := none, emoji := 0,
                replyId := 0, dest := 0, requestId := 0, source := 0 }) ∈
          pre ∧
        ∀ e ∈ pre, isPortDispatch e = false :=
  ⟨rfl, c6_ack_resolution_before_dispatch dev0 samplePacket _ rfl⟩

/-- C2: when the config-complete marker arrives during a handshake (the
session is not yet `Configured`) and frames fit the 512-byte limit, the
trace first contains no enqueue, then enqueues the peer-capability
announcement, then (in `mid`) enqueues the channel request for every index
`0 … maxChannels` (on-wire values `1 … maxChannels + 1`, in order), and only
then — as the very last effect — emits the status change to `Configured`,
which is also the resulting device status. -/
theorem c2_config_complete_sequence (env : Env) (dev : IMeshDevice)
    (n fid : Nat) (hsmall : ∀ f, env.encLen f ≤ 512)
    (hstat : dev.deviceStatus ≠ DeviceStatusEnum.DEVICE_CONFIGURED) :
    ∃ pre mid,
      (handleFromRadio env dev
          { id := fid, payloadVariant := .configCompleteId n }).2 =
        pre ++ (Effect.enqueued 0 (ToRadio.peerInfo 1 false) :: mid) ++
          [Effect.evDeviceStatus .DEVICE_CONFIGURED] ∧
      (∀ e ∈ pre, enqueueOf e = none) ∧
      channelRequestValues mid =
        List.range' 1 (dev.myNodeInfo.maxChannels + 1) ∧
      (handleFromRadio env dev
          { id := fid, payloadVariant := .configCompleteId n }).1.deviceStatus =
        DeviceStatusEnum.DEVICE_CONFIGURED := by
  have hne : DeviceStatusEnum.DEVICE_CONFIGURED ≠
      (getAllChannels env
        ({ dev with queue := (Queue.processQueue (dev.queue ++
            [{ id := 0, data := ToRadio.peerInfo 1 false, cb := 0,
               waitingAck := false }])).1 })
        (some 0)).1.deviceStatus := by
    have hcore := (getAllChannels_core env
      ({ dev with queue := (Queue.processQueue (dev.queue ++
          [{ id := 0, data := ToRadio.peerInfo 1 false, cb := 0,
             waitingAck := false }])).1 })
      (some 0)).1
    rw [hcore]
    exact fun heq => hstat heq.symm
  refine ⟨Effect.evFromRadio { id := fid, payloadVariant := .configCompleteId n } ::
      (if n ≠ dev.configId then [Effect.logged .ERROR] else []),
    (Queue.processQueue (dev.queue ++
        [{ id := 0, data := ToRadio.peerInfo 1 false, cb := 0,
           waitingAck := false }])).2 ++
      (getAllChannels env
        ({ dev with queue := (Queue.processQueue (dev.queue ++
            [{ id := 0, data := ToRadio.peerInfo 1 false, cb := 0,
               waitingAck := false }])).1 })
        (some 0)).2,
    ?_, ?_, ?_, ?_⟩
  · simp only [handleFromRadio]
    simp [sendRaw_eq_of_le dev 0 0 (hsmall (ToRadio.peerInfo 1 false)),
      updateDeviceStatus_snd_of_ne hne, List.append_assoc]
  · intro e he
    rcases List.mem_cons.mp he with rfl | h2
    · rfl
    · by_cases hn : n ≠ dev.configId
      · rw [if_pos hn] at h2
        obtain rfl := List.mem_singleton.mp h2
        rfl
      · rw [if_neg hn] at h2
        exact absurd h2 (List.not_mem_nil e)
  · rw [channelRequestValues_append, channelRequestValues_processQueue,
      channelRequestValues_getAllChannels hsmall]
    simp
  · simp only [handleFromRadio]
    exact updateDeviceStatus_fst_status _ _

/-- C2 witness: on the sample handshaking device (`maxChannels = 1`), the
config-complete sequence holds concretely. -/
theorem c2_witness :
    (∀ f, env0.encLen f ≤ 512) ∧
      dev0.deviceStatus ≠ DeviceStatusEnum.DEVICE_CONFIGURED ∧
      ∃ pre mid,
        (handleFromRadio env0 dev0
            { id := 0, payloadVariant := .configCompleteId 7 }).2 =
          pre ++ (Effect.enqueued 0 (ToRadio.peerInfo 1 false) :: mid) ++
            [Effect.evDeviceStatus .DEVICE_CONFIGURED] ∧
        (∀ e ∈ pre, enqueueOf e = none) ∧
        channelRequestValues mid =
          List.range' 1 (dev0.myNodeInfo.maxChannels + 1) ∧
        (handleFromRadio env0 dev0
            { id := 0, payloadVariant := .configCompleteId 7 }).1.deviceStatus =
          DeviceStatusEnum.DEVICE_CONFIGURED :=
  ⟨fun _ => Nat.zero_le 512, by decide,
   c2_config_complete_sequence env0 dev0 7 0 (fun _ => Nat.zero_le 512)
     (by decide)⟩

/-- C1 counterexample: the claim says a rebooted notice re-runs the
handshake "with a freshly generated configId"; on the concrete configured
device (configId 7, random stream yielding 100), the re-run keeps configId
7, draws nothing from the random stream, and sends the want-config frame
carrying the old id 7. -/
theorem c1_configId_not_refreshed_cex :
    (handleFromRadio env0 devConfigured
        { id := 0, payloadVariant := .rebooted true }).1.configId =
      devConfigured.configId ∧
    (handleFromRadio env0 devConfigured
        { id := 0, payloadVariant := .rebooted true }).1.rndCtr =
      devConfigured.rndCtr ∧
    Effect.enqueued 0 (ToRadio.wantConfigId 7) ∈
      (handleFromRadio env0 devConfigured
        { id := 0, payloadVariant := .rebooted true }).2 ∧
    env0.randId devConfigured.rndCtr ≠ devConfigured.configId := by
  decide

/-- C1 (amended): a rebooted notice received while `Configured` re-runs
`configure()`: the status goes back through `Configuring` (event emitted and
state updated), a want-config frame is enqueued — but it carries the
session's existing `configId`, unchanged, and no fresh random id is drawn —
and a subsequent config-complete echoing that id drives the status to
`Configured` again. -/
theorem c1_rebooted_rerun_reuses_configId (env : Env) (dev : IMeshDevice)
    (b : Bool) (fid fid2 : Nat) (hsmall : ∀ f, env.encLen f ≤ 512)
    (hstat : dev.deviceStatus = DeviceStatusEnum.DEVICE_CONFIGURED) :
    (handleFromRadio env dev
        { id := fid, payloadVariant := .rebooted b }).1.deviceStatus =
      DeviceStatusEnum.DEVICE_CONFIGURING ∧
    Effect.evDeviceStatus .DEVICE_CONFIGURING ∈
      (handleFromRadio env dev { id := fid, payloadVariant := .rebooted b }).2 ∧
    (handleFromRadio env dev
        { id := fid, payloadVariant := .rebooted b }).1.configId =
      dev.configId ∧
    (handleFromRadio env dev
        { id := fid, payloadVariant := .rebooted b }).1.rndCtr = dev.rndCtr ∧
    Effect.enqueued 0 (ToRadio.wantConfigId dev.configId) ∈
      (handleFromRadio env dev { id := fid, payloadVariant := .rebooted b }).2 ∧
    (handleFromRadio env
        (handleFromRadio env dev { id := fid, payloadVariant := .rebooted b }).1
        { id := fid2, payloadVariant := .configCompleteId dev.configId
        }).1.deviceStatus =
      DeviceStatusEnum.DEVICE_CONFIGURED := by
  have hne1 : DeviceStatusEnum.DEVICE_CONFIGURING ≠ dev.deviceStatus := by
    rw [hstat]
    decide
  simp only [handleFromRadio, configure]
  rw [updateDeviceStatus_of_ne hne1,
    sendRaw_eq_of_le _ 0 0 (hsmall (ToRadio.wantConfigId dev.configId))]
  refine ⟨rfl, ?_, rfl, rfl, ?_, updateDeviceStatus_fst_status _ _⟩
  · simp
  · simp

/-- C1 witness: the amended behavior holds on the concrete configured
device. -/
theorem c1_witness :
    (∀ f, env0.encLen f ≤ 512) ∧
      devConfigured.deviceStatus = DeviceStatusEnum.DEVICE_CONFIGURED ∧
      ((handleFromRadio env0 devConfigured
          { id := 0, payloadVariant := .rebooted true }).1.deviceStatus =
        DeviceStatusEnum.DEVICE_CONFIGURING ∧
      Effect.evDeviceStatus .DEVICE_CONFIGURING ∈
        (handleFromRadio env0 devConfigured
          { id := 0, payloadVariant := .rebooted true }).2 ∧
      (handleFromRadio env0 devConfigured
          { id := 0, payloadVariant := .rebooted true }).1.configId =
        devConfigured.configId ∧
      (handleFromRadio env0 devConfigured
          { id := 0, payloadVariant := .rebooted true }).1.rndCtr =
        devConfigured.rndCtr ∧
      Effect.enqueued 0 (ToRadio.wantConfigId devConfigured.configId) ∈
        (handleFromRadio env0 devConfigured
          { id := 0, payloadVariant := .rebooted true }).2 ∧
      (handleFromRadio env0
          (handleFromRadio env0 devConfigured
            { id := 0, payloadVariant := .rebooted true }).1
          { id := 1, payloadVariant := .configCompleteId devConfigured.configId
          }).1.deviceStatus =
        DeviceStatusEnum.DEVICE_CONFIGURED) :=
  ⟨fun _ => Nat.zero_le 512, rfl,
   c1_rebooted_rerun_reuses_configId env0 devConfigured true 0 1
     (fun _ => Nat.zero_le 512) rfl⟩

/-- C9: `sendLocation` enqueues exactly one frame: a mesh packet whose
decoded data carries port `TEXT_MESSAGE_APP`, an empty byte payload, and the
location in the packet's `location` field. -/
theorem c9_sendLocation_packet_shape (env : Env) (dev : IMeshDevice)
    (loc : Location) (dest : Option Nat) (wantAck : Bool) (channel cb : Nat)
    (hsmall : ∀ f, env.encLen f ≤ 512) :
    ∃ mp d,
      enqueuedFrames (sendLocation env dev loc dest wantAck channel cb).2 =
        [ToRadio.packet mp] ∧
      mp.payloadVariant = PacketVariant.decoded d ∧
      d.portnum = PortNum.TEXT_MESSAGE_APP ∧
      d.payload = Payload.empty ∧
      d.location = some loc := by
  refine ⟨builtMeshPacket env dev Payload.empty .TEXT_MESSAGE_APP dest wantAck
      channel false 0 (some loc) 0,
    { payload := Payload.empty, portnum := .TEXT_MESSAGE_APP,
      wantResponse := false, location := some loc, emoji := 0, replyId := 0,
      dest := 0, requestId := 0, source := 0 },
    ?_, rfl, rfl, rfl, rfl⟩
  simp only [sendLocation, sendPacket, builtMeshPacket, handleMeshPacket,
    handleDataPacket, generateRandId]
  rw [sendRaw_eq_of_le _ _ cb (hsmall _)]
  simp [enqueuedFrames, List.filterMap_cons, enqueueOf, Payload.asText,
    filterMap_enqueueOf_processAck, filterMap_enqueueOf_processQueue]

/-- C9 witness: concrete evaluation on the sample device. -/
theorem c9_witness :
    (∀ f, env0.encLen f ≤ 512) ∧
      ∃ mp d,
        enqueuedFrames
            (sendLocation env0 dev0 { latitudeI := 1, longitudeI := 2 } none
              false 0 0).2 =
          [ToRadio.packet mp] ∧
        mp.payloadVariant = PacketVariant.decoded d ∧
        d.portnum = PortNum.TEXT_MESSAGE_APP ∧
        d.payload = Payload.empty ∧
        d.location = some { latitudeI := 1, longitudeI := 2 } :=
  ⟨fun _ => Nat.zero_le 512,
   c9_sendLocation_packet_shape env0 dev0 { latitudeI := 1, longitudeI := 2 }
     none false 0 0 (fun _ => Nat.zero_le 512)⟩

/-- C10: `sendText` always echoes the constructed packet through the local
inbound handler before anything is queued for the transport: the trace
splits into a prefix containing the `onTextPacket` event with the sent text
(and no enqueue effect) followed by the queueing effects; the echoed
packet's sender is the local node id, so no mesh-heartbeat event is emitted
anywhere in the trace; and at most one frame is enqueued — none when the
encoded frame exceeds 512 bytes, so the text event fires even then. -/
theorem c10_sendText_echo_before_queue (env : Env) (dev : IMeshDevice)
    (text : String) (dest : Option Nat) (wantAck : Bool) (channel cb : Nat) :
    ∃ pre post mp,
      (sendText env dev text dest wantAck channel cb).2 = pre ++ post ∧
      Effect.evText mp text ∈ pre ∧
      mp.fromNode = dev.myNodeInfo.myNodeNum ∧
      (∀ e ∈ pre, enqueueOf e = none) ∧
      Effect.evMeshHeartbeat ∉
        (sendText env dev text dest wantAck channel cb).2 ∧
      (enqueuedFrames (sendText env dev text dest wantAck channel cb).2 = [] ∨
        ∃ f,
          enqueuedFrames (sendText env dev text dest wantAck channel cb).2 =
            [f] ∧
          env.encLen f ≤ 512) := by
  have hnoenq : ∀ e ∈ (Effect.logged LogRecordLevel.DEBUG ::
      Effect.logged .TRACE ::
      Effect.evMeshPacket
        (builtMeshPacket env dev (Payload.text text) .TEXT_MESSAGE_APP dest
          wantAck channel false 0 none 0) ::
      Effect.processAckCall 0 ::
      ((Queue.processAck 0 dev.queue).2 ++
        [Effect.logged .TRACE,
          Effect.evText
            (builtMeshPacket env dev (Payload.text text) .TEXT_MESSAGE_APP dest
              wantAck channel false 0 none 0) text])), enqueueOf e = none := by
    intro e he
    rcases List.mem_cons.mp he with rfl | he
    · rfl
    rcases List.mem_cons.mp he with rfl | he
    · rfl
    rcases List.mem_cons.mp he with rfl | he
    · rfl
    rcases List.mem_cons.mp he with rfl | he
    · rfl
    rcases List.mem_append.mp he with h1 | h1
    · rcases mem_processAck_snd h1 with ⟨c, rfl⟩ | ⟨f, rfl⟩ <;> rfl
    · rcases List.mem_cons.mp h1 with rfl | h1
      · rfl
      · obtain rfl := List.mem_singleton.mp h1
        rfl
  refine ⟨_, _,
    builtMeshPacket env dev (Payload.text text) .TEXT_MESSAGE_APP dest wantAck
      channel false 0 none 0,
    sendText_snd env dev text dest wantAck channel cb, ?_, rfl, hnoenq, ?_, ?_⟩
  · simp
  · rw [sendText_snd]
    intro hmem
    rcases List.mem_append.mp hmem with h1 | h1
    · rcases List.mem_cons.mp h1 with h2 | h1
      · exact Effect.noConfusion h2
      rcases List.mem_cons.mp h1 with h2 | h1
      · exact Effect.noConfusion h2
      rcases List.mem_cons.mp h1 with h2 | h1
      · exact Effect.noConfusion h2
      rcases List.mem_cons.mp h1 with h2 | h1
      · exact Effect.noConfusion h2
      rcases List.mem_append.mp h1 with h2 | h2
      · rcases mem_processAck_snd h2 with ⟨c, hc⟩ | ⟨f, hf⟩
        · exact Effect.noConfusion hc
        · exact Effect.noConfusion hf
      · rcases List.mem_cons.mp h2 with h3 | h3
        · exact Effect.noConfusion h3
        · exact Effect.noConfusion (List.mem_singleton.mp h3)
    · rcases mem_sendRaw_snd h1 with ⟨lv, hl⟩ | hl | ⟨g, hg⟩
      · exact Effect.noConfusion hl
      · exact Effect.noConfusion hl
      · exact Effect.noConfusion hg
  · rw [sendText_snd, enqueuedFrames_append, enqueuedFrames_eq_nil hnoenq,
      enqueuedFrames_sendRaw]
    by_cases hlen : 512 <
      env.encLen
        (ToRadio.packet
          (builtMeshPacket env dev (Payload.text text) .TEXT_MESSAGE_APP dest
            wantAck channel false 0 none 0))
    · left
      rw [if_pos hlen]
      rfl
    · right
      refine ⟨_, ?_, Nat.not_lt.mp hlen⟩
      rw [if_neg hlen]
      rfl

/-- C4 counterexample: the claim says `disconnect()` clears the Send Queue
in every session state, but it only runs `complete()` (which clears the
queue and cancels the event channels) when the read loop had been started;
on the concrete connection disconnected while still `Connecting` (read loop
never started), the pending item stays queued and no event-channel teardown
happens. -/
theorem c4_disconnect_queue_not_cleared_cex :
    (HttpConnection.disconnect httpNoLoop).1.dev.queue = [sampleItem] ∧
    Effect.allEventsCancelled ∉ (HttpConnection.disconnect httpNoLoop).2 := by
  decide

/-- C4 (amended): `disconnect()` always fires the abort controller and
forces the status to `Disconnected`, and never invokes a queued callback;
but it clears the Send Queue, stops the read loop, and cancels the event
channels only when the read loop had been started (i.e. after a successful
connect). -/
theorem c4_disconnect_behavior (h : HttpConnection) :
    (HttpConnection.disconnect h).1.aborted = true ∧
    (HttpConnection.disconnect h).1.dev.deviceStatus =
      DeviceStatusEnum.DEVICE_DISCONNECTED ∧
    (∀ c, Effect.callbackInvoked c ∉ (HttpConnection.disconnect h).2) ∧
    (h.readLoop = true →
      (HttpConnection.disconnect h).1.dev.queue = [] ∧
      (HttpConnection.disconnect h).1.readLoop = false ∧
      Effect.allEventsCancelled ∈ (HttpConnection.disconnect h).2) := by
  simp only [HttpConnection.disconnect, complete, Queue.clear]
  by_cases hr : h.readLoop = true
  · rw [if_pos hr]
    refine ⟨rfl, updateDeviceStatus_fst_status _ _, ?_, fun _ => ⟨rfl, rfl, ?_⟩⟩
    · intro c hc
      rcases List.mem_append.mp hc with h1 | h1
      · exact Effect.noConfusion (mem_updateDeviceStatus_snd h1)
      · exact Effect.noConfusion (List.mem_singleton.mp h1)
    · simp
  · rw [if_neg hr]
    refine ⟨rfl, updateDeviceStatus_fst_status _ _, ?_, fun hh => absurd hh hr⟩
    intro c hc
    exact Effect.noConfusion (mem_updateDeviceStatus_snd hc)

/-- C4 witness: on the connection whose read loop is running, disconnect
clears the queue, stops the loop, and cancels the event channels. -/
theorem c4_witness :
    httpSample.readLoop = true ∧
      ((HttpConnection.disconnect httpSample).1.dev.queue = [] ∧
        (HttpConnection.disconnect httpSample).1.readLoop = false ∧
        Effect.allEventsCancelled ∈ (HttpConnection.disconnect httpSample).2) :=
  ⟨rfl, (c4_disconnect_behavior httpSample).2.2.2 rfl⟩

end Meshtastic
